import Mathlib

/-!
Shallow embedding of `main.py` from the chatgpt-api-cost-calculator
repository, together with theorems checking the natural-language
specification against it.

Modelling conventions:
* Python/JSON values are the inductive `PyVal`; Python `None` is `pnone`.
* Python exceptions are `PyErr`; fallible code returns `Except PyErr _`.
* Python ints are Lean `Int`; token counts produced by a tokenizer are `Nat`.
* Python floats (prices, costs) are modelled as exact rationals `ℚ`.
* A tiktoken tokenizer is an opaque-to-the-program function `String → Nat`
  (`count_tokens` catches every tokenizer failure and returns 0, so a total
  function is adequate).
* `datetime.fromtimestamp(t).strftime("%Y-%m")` is modelled in UTC via the
  standard civil-calendar conversion (`monthKey`).
* `json.dumps` is modelled by `jsonDumps`; string escaping is limited to
  quotes and backslashes (the only escapes the development exercises).
-/

namespace CostCalc

/-- Python exceptions that the modelled fragment of `main.py` can raise. -/
inductive PyErr where
  | attributeError
  | typeError
  | indexError
  | keyError
deriving DecidableEq, Repr

/-- Python/JSON values as seen by `main.py`. -/
inductive PyVal where
  | pnone
  | pbool (b : Bool)
  | pint (n : Int)
  | pstr (s : String)
  | plist (xs : List PyVal)
  | pdict (kvs : List (String × PyVal))

/-- First-match lookup in an association list, with a default
(the semantics of Python `dict.get(k, d)` for string keys). -/
def findD {α : Type} (l : List (String × α)) (k : String) (d : α) : α :=
  match l with
  | [] => d
  | (k1, v) :: rest => if k = k1 then v else findD rest k d

/-- First-match lookup in an association list (Python `dict[k]` / `k in dict`). -/
def findOpt {α : Type} (l : List (String × α)) (k : String) : Option α :=
  match l with
  | [] => none
  | (k1, v) :: rest => if k = k1 then some v else findOpt rest k

/-- Python `obj.get(k, d)`: works on dicts, raises `AttributeError` on any
other value (including `None`).  Since `AttributeError` is the only possible
failure, the result is an `Option` (`none` = `AttributeError`). -/
def pyGetD (v : PyVal) (k : String) (d : PyVal) : Option PyVal :=
  match v with
  | .pdict kvs => some (findD kvs k d)
  | _ => none

/-- Python truthiness of a value. -/
def pyTruthy : PyVal → Bool
  | .pnone => false
  | .pbool b => b
  | .pint n => n != 0
  | .pstr s => !s.isEmpty
  | .plist xs => !xs.isEmpty
  | .pdict kvs => !kvs.isEmpty

/-- Python `v[0]`: head of a list or string (raising `IndexError` when empty),
`KeyError` on a string-keyed dict (the key `0` is absent), `TypeError` on
non-subscriptable values. -/
def pyIndex0 : PyVal → Except PyErr PyVal
  | .plist [] => .error .indexError
  | .plist (x :: _) => .ok x
  | .pstr s =>
    match s.data with
    | [] => .error .indexError
    | c :: _ => .ok (.pstr c.toString)
  | .pdict _ => .error .keyError
  | _ => .error .typeError

/-- Python `for x in v`: lists yield their elements, strings their
characters, dicts their keys; other values raise `TypeError`. -/
def pyIter : PyVal → Except PyErr (List PyVal)
  | .plist xs => .ok xs
  | .pstr s => .ok (s.data.map (fun c => .pstr c.toString))
  | .pdict kvs => .ok (kvs.map (fun kv => .pstr kv.1))
  | _ => .error .typeError

/-- Python `v.items()`: key/value pairs of a dict, `AttributeError` otherwise. -/
def pyItems : PyVal → Except PyErr (List (String × PyVal))
  | .pdict kvs => .ok kvs
  | _ => .error .attributeError

/-- Python `len(v)` for sized values, `TypeError` otherwise. -/
def pyLen : PyVal → Except PyErr Nat
  | .pstr s => .ok s.length
  | .plist xs => .ok xs.length
  | .pdict kvs => .ok kvs.length
  | _ => .error .typeError

/-- Python `v[k]` for a string key: dict lookup raising `KeyError` on a miss,
`TypeError` on values that do not accept string subscripts. -/
def pySubscriptStr (v : PyVal) (k : String) : Except PyErr PyVal :=
  match v with
  | .pdict kvs =>
    match findOpt kvs k with
    | some x => .ok x
    | none => .error .keyError
  | _ => .error .typeError

/-- Python `datetime.fromtimestamp(v)`: accepts numbers (`bool` is an int),
raises `TypeError` otherwise.  Returns the Unix timestamp as an integer. -/
def pyTimestamp : PyVal → Except PyErr Int
  | .pint n => .ok n
  | .pbool b => .ok (if b then 1 else 0)
  | _ => .error .typeError

/-- Civil calendar (proleptic Gregorian) year and month of a day count from
the Unix epoch. -/
def civilOfDays (z0 : Int) : Int × Int :=
  let z : Int := z0 + 719468
  let era : Int := (if 0 ≤ z then z else z - 146096) / 146097
  let doe : Int := z - era * 146097
  let yoe : Int := (doe - doe / 1460 + doe / 36524 - doe / 146096) / 365
  let y : Int := yoe + era * 400
  let doy : Int := doe - (365 * yoe + yoe / 4 - yoe / 100)
  let mp : Int := (5 * doy + 2) / 153
  let m : Int := if mp < 10 then mp + 3 else mp - 9
  (if m ≤ 2 then y + 1 else y, m)

/-- Zero-pad a month number to two digits (`strftime` `%m`). -/
def pad2 (n : Int) : String :=
  if n < 10 then "0" ++ toString n else toString n

/-- Model of `datetime.fromtimestamp(ts).strftime("%Y-%m")` (UTC). -/
def monthKey (ts : Int) : String :=
  let ym := civilOfDays (Int.fdiv ts 86400)
  toString ym.1 ++ "-" ++ pad2 ym.2

/-- Escape one character as in a JSON string literal. -/
def jsonEscapeChar (c : Char) : String :=
  if c = '"' then "\\\"" else if c = '\\' then "\\\\" else c.toString

/-- A JSON string literal. -/
def jsonQuote (s : String) : String :=
  "\"" ++ String.join (s.data.map jsonEscapeChar) ++ "\""

mutual

/-- Model of Python `json.dumps` on the modelled values. -/
def jsonDumps : PyVal → String
  | .pnone => "null"
  | .pbool b => if b then "true" else "false"
  | .pint n => toString n
  | .pstr s => jsonQuote s
  | .plist xs => "[" ++ String.intercalate ", " (jsonDumpsList xs) ++ "]"
  | .pdict kvs => "\x7b" ++ String.intercalate ", " (jsonDumpsKVs kvs) ++ "\x7d"

/-- `json.dumps` of each element of a list. -/
def jsonDumpsList : List PyVal → List String
  | [] => []
  | x :: xs => jsonDumps x :: jsonDumpsList xs

/-- `json.dumps` of each `"key": value` entry of a dict. -/
def jsonDumpsKVs : List (String × PyVal) → List String
  | [] => []
  | (k, v) :: kvs => (jsonQuote k ++ ": " ++ jsonDumps v) :: jsonDumpsKVs kvs

end

/-- A loaded tiktoken tokenizer: text in, token count out
(`count_tokens` maps every failure to 0, so a total function suffices). -/
abbrev Tok := String → Nat

/-- The tokenizer table built by `load_tokenizers` (keys are canonical
model names, i.e. the values of `MODEL_MAPPINGS`). -/
abbrev Tokenizers := List (String × Tok)

/-- The `COSTS` table of `main.py`: USD per million tokens, input/output. -/
def COSTS : List (String × (ℚ × ℚ)) :=
  [("gpt-4", (30, 60)),
   ("gpt-4-turbo", (10, 30)),
   ("gpt-4o", (5, 15)),
   ("gpt-3.5-turbo", (0.5, 1.5))]

/-- The `MODEL_MAPPINGS` table of `main.py`: raw slug to canonical model. -/
def MODEL_MAPPINGS : List (String × String) :=
  [("gpt-4", "gpt-4-turbo"),
   ("gpt-4-browsing", "gpt-4-turbo"),
   ("gpt-4-code-interpreter", "gpt-4-turbo"),
   ("gpt-4-dalle", "gpt-4-turbo"),
   ("gpt-4-gizmo", "gpt-4-turbo"),
   ("gpt-4-mobile", "gpt-4-turbo"),
   ("gpt-4-plugins", "gpt-4-turbo"),
   ("gpt-4o", "gpt-4o"),
   ("text-davinci-002-render", "gpt-3.5-turbo"),
   ("text-davinci-002-render-sha", "gpt-3.5-turbo"),
   ("text-davinci-002-render-sha-mobile", "gpt-3.5-turbo")]

/-- Line 78: `MODEL_MAPPINGS.get(model_slug, "gpt-4o")`.  A non-string slug
is never a key of the table, so it also falls back to the default. -/
def modelFor : PyVal → String
  | .pstr s => findD MODEL_MAPPINGS s "gpt-4o"
  | _ => "gpt-4o"

/-- Line 79: `tokenizers.get(model_slug, tokenizers["gpt-4o"])`.  Python
evaluates the default argument `tokenizers["gpt-4o"]` first, so a missing
`gpt-4o` entry raises `KeyError` unconditionally. -/
def selectTokenizer (tks : Tokenizers) (slug : PyVal) : Except PyErr Tok :=
  match findOpt tks "gpt-4o" with
  | none => .error .keyError
  | some dflt =>
    match slug with
    | .pstr s => .ok ((findOpt tks s).getD dflt)
    | _ => .ok dflt

/-- Lines 81-82: a dict part is replaced by its `json.dumps` serialization
before tokenizing. -/
def serializePart (part : PyVal) : PyVal :=
  match part with
  | .pdict kvs => .pstr (jsonDumps (.pdict kvs))
  | _ => part

/-- `count_tokens` (lines 40-46): tokenize a text; any failure (in
particular a non-string argument) yields 0. -/
def count_tokens (tok : Tok) (v : PyVal) : Nat :=
  match v with
  | .pstr s => tok s
  | _ => 0

/-- Token count of one content part: serialize dicts, then `count_tokens`
(lines 80-84). -/
def partTokenCount (tok : Tok) (part : PyVal) : Nat :=
  count_tokens tok (serializePart part)

/-- Lines 86-91: the 32,000-token cap.  From the running counter and the
per-part raw count, returns the new counter and the counted (possibly
truncated) contribution. -/
def capStep (cum t : Int) : Int × Int :=
  if cum + t > 32000 then (32000, 32000 - cum) else (cum + t, t)

/-- A per-model usage row of one month: model name to token count
(the innermost `input`/`output` level of the Python defaultdict is
collapsed, since each grid only ever uses its own direction key). -/
abbrev Inn := List (String × Int)

/-- One usage grid (`monthly_model_usage_input` or `..._output`):
month key to per-model row. -/
abbrev Grid := List (String × Inn)

/-- `row[model] += t` with defaultdict-int semantics. -/
def innerAdd (inn : Inn) (mo : String) (t : Int) : Inn :=
  match inn with
  | [] => [(mo, t)]
  | (k, v) :: rest => if k = mo then (k, v + t) :: rest else (k, v) :: innerAdd rest mo t

/-- `grid[month][model] += t` with defaultdict semantics. -/
def gridAdd (g : Grid) (m mo : String) (t : Int) : Grid :=
  match g with
  | [] => [(m, innerAdd [] mo t)]
  | (k, inn) :: rest => if k = m then (k, innerAdd inn mo t) :: rest else (k, inn) :: gridAdd rest m mo t

/-- Token count stored in a row for a model (0 when absent). -/
def innerLook (inn : Inn) (mo : String) : Int :=
  findD inn mo 0

/-- Token count stored in a grid at (month, model) (0 when absent). -/
def gridLook (g : Grid) (m mo : String) : Int :=
  innerLook (findD g m []) mo

/-- Sum of all counts of a row. -/
def innerTotal (inn : Inn) : Int :=
  (inn.map Prod.snd).sum

/-- Sum of all counts of a grid. -/
def gridTotal (g : Grid) : Int :=
  (g.map (fun p => innerTotal p.2)).sum

/-- Mutable state of the extraction loop: the per-conversation counter
`cumulative_input_tokens` and the two grids. -/
structure St where
  cum : Int
  gin : Grid
  gout : Grid
deriving DecidableEq, Repr

/-- Python `role == "user"` style comparison: false for non-strings. -/
def isRole (role : PyVal) (name : String) : Bool :=
  match role with
  | .pstr s => s = name
  | _ => false

/-- Lines 80-99: account one content part.  The cap is drawn down for every
part; user parts bill the (truncated) count as input, assistant parts bill
it as output and - when the node has children - additionally as input. -/
def processPart (tok : Tok) (month model : String) (role : PyVal) (hc : Bool)
    (st : St) (part : PyVal) : St :=
  let t0 : Int := partTokenCount tok part
  let c := capStep st.cum t0
  if isRole role "user" then
    { cum := c.1, gin := gridAdd st.gin month model c.2, gout := st.gout }
  else if isRole role "assistant" then
    { cum := c.1,
      gin := if hc then gridAdd st.gin month model c.2 else st.gin,
      gout := gridAdd st.gout month model c.2 }
  else
    { cum := c.1, gin := st.gin, gout := st.gout }

/-- The `for part in message_content` loop. -/
def processParts (tok : Tok) (month model : String) (role : PyVal) (hc : Bool)
    (st : St) (parts : List PyVal) : St :=
  parts.foldl (processPart tok month model role hc) st

/-- Lines 70-74: the five `.get`-chain reads of one node, in source order.
All failures of this phase are `AttributeError` (= `none`). -/
def nodeFields (md : PyVal) :
    Option (PyVal × PyVal × PyVal × PyVal × PyVal) := do
  let msg1 ← pyGetD md "message" (.pdict [])
  let content ← pyGetD msg1 "content" (.pdict [])
  let message_content ← pyGetD content "parts" (.plist [.pstr ""])
  let msg2 ← pyGetD md "message" (.pdict [])
  let author ← pyGetD msg2 "author" (.pdict [])
  let author_role ← pyGetD author "role" (.pstr "")
  let msg3 ← pyGetD md "message" (.pdict [])
  let create_time ← pyGetD msg3 "create_time" .pnone
  let msg4 ← pyGetD md "message" (.pdict [])
  let metadata ← pyGetD msg4 "metadata" (.pdict [])
  let model_slug ← pyGetD metadata "model_slug" .pnone
  let children ← pyGetD md "children" (.plist [])
  pure (message_content, author_role, create_time, model_slug, children)

/-- Lines 76-99: the guard `if create_time and message_content[0] and
model_slug:`, and the accounting of the parts of the node.  Note that
`message_content[0]` (which can raise `IndexError`, `TypeError` or
`KeyError`) is evaluated whenever `create_time` is truthy. -/
def accountNode (tks : Tokenizers) (st : St)
    (message_content author_role create_time model_slug children : PyVal) :
    Except PyErr St :=
  if pyTruthy create_time then
    match pyIndex0 message_content with
    | .error e => .error e
    | .ok mc0 =>
      if pyTruthy mc0 && pyTruthy model_slug then
        match pyTimestamp create_time with
        | .error e => .error e
        | .ok ts =>
          match selectTokenizer tks model_slug with
          | .error e => .error e
          | .ok tok =>
            match pyIter message_content with
            | .error e => .error e
            | .ok parts =>
              .ok (processParts tok (monthKey ts) (modelFor model_slug)
                    author_role (pyTruthy children) st parts)
      else .ok st
  else .ok st

/-- The body of the per-node `try` block (lines 70-99). -/
def processNodeBody (tks : Tokenizers) (st : St) (md : PyVal) : Except PyErr St :=
  match nodeFields md with
  | none => .error .attributeError
  | some (mc, role, ct, slug, ch) => accountNode tks st mc role ct slug ch

/-- Lines 69-101: `except AttributeError: pass` - an `AttributeError`
skips the node; every other exception propagates and aborts the run. -/
def processNode (tks : Tokenizers) (st : St) (md : PyVal) : Except PyErr St :=
  match processNodeBody tks st md with
  | .error .attributeError => .ok st
  | r => r

/-- Line 67: the loop over `conversation["mapping"].items()`. -/
def processItems (tks : Tokenizers) (st : St) :
    List (String × PyVal) → Except PyErr St
  | [] => .ok st
  | kv :: rest =>
    match processNode tks st kv.2 with
    | .error e => .error e
    | .ok st1 => processItems tks st1 rest

/-- Lines 65-99 for one conversation: `cumulative_input_tokens = 0`, then
the node loop.  `conversation["mapping"]` and `.items()` sit outside the
`try`, so their failures abort the run. -/
def processConversation (tks : Tokenizers) (g : Grid × Grid) (conv : PyVal) :
    Except PyErr (Grid × Grid) :=
  match pySubscriptStr conv "mapping" with
  | .error e => .error e
  | .ok m =>
    match pyItems m with
    | .error e => .error e
    | .ok items =>
      match processItems tks { cum := 0, gin := g.1, gout := g.2 } items with
      | .error e => .error e
      | .ok st => .ok (st.gin, st.gout)

/-- The outer `for conversation in data` loop. -/
def processConversations (tks : Tokenizers) (g : Grid × Grid) :
    List PyVal → Except PyErr (Grid × Grid)
  | [] => .ok g
  | c :: cs =>
    match processConversation tks g c with
    | .error e => .error e
    | .ok g1 => processConversations tks g1 cs

/-- Line 62: `sum(len(conversation["mapping"]) for conversation in data)` -
evaluated before any accounting; its exceptions abort the run. -/
def countMessages : List PyVal → Except PyErr Nat
  | [] => .ok 0
  | c :: cs =>
    match pySubscriptStr c "mapping" with
    | .error e => .error e
    | .ok m =>
      match pyLen m with
      | .error e => .error e
      | .ok n =>
        match countMessages cs with
        | .error e => .error e
        | .ok k => .ok (n + k)

/-- `extract_token_usage` (lines 56-107): returns the input and output
usage grids, or the exception that aborted the run. -/
def extract_token_usage (tks : Tokenizers) (data : List PyVal) :
    Except PyErr (Grid × Grid) :=
  match countMessages data with
  | .error e => .error e
  | .ok _ => processConversations tks ([], []) data

/-- The accumulation loop of `calculate_cost` (lines 112-116): iterate the
models of the input slice; for each, bill input and output tokens at the
`COSTS` prices.  A model absent from `COSTS` raises `KeyError`. -/
def costLoop (output_usage : Inn) : Inn → ℚ → Except PyErr ℚ
  | [], total => .ok total
  | p :: rest, total =>
    match findOpt COSTS p.1 with
    | none => .error .keyError
    | some price =>
      costLoop output_usage rest (total + ((p.2 : ℚ) / 1000000 * price.1
        + (innerLook output_usage p.1 : ℚ) / 1000000 * price.2))

/-- `calculate_cost` (lines 109-121).  Floats are modelled as exact
rationals. -/
def calculate_cost (input_usage output_usage : Inn) : Except PyErr ℚ :=
  costLoop output_usage input_usage 0

/-- A conversation node of the export shape `{ message: { content: { parts },
author: { role }, create_time, metadata: { model_slug } }, children }`. -/
def mkNode (ct parts role slug children : PyVal) : PyVal :=
  .pdict [("message", .pdict
      [("content", .pdict [("parts", parts)]),
       ("author", .pdict [("role", role)]),
       ("create_time", ct),
       ("metadata", .pdict [("model_slug", slug)])]),
    ("children", children)]

/-- A conversation: a `mapping` from node ids to nodes. -/
def mkConv (kvs : List (String × PyVal)) : PyVal :=
  .pdict [("mapping", .pdict kvs)]

/-- A character-counting tokenizer used as a concrete text encoding. -/
def tokLen : Tok := String.length

/-- A tokenizer table holding only the default `gpt-4o` entry. -/
def tksLen : Tokenizers := [("gpt-4o", tokLen)]

/-- Data for C1: one conversation, one user node with two 3-token parts. -/
def dataC1 : List PyVal :=
  [mkConv [("n1", mkNode (.pint 1700000000) (.plist [.pstr "aaa", .pstr "aaa"])
      (.pstr "user") (.pstr "gpt-4o") (.plist []))]]

/-- Data for the C2 scenario: a 3-token user message then a 2-token
assistant reply whose node has children. -/
def dataC2 : List PyVal :=
  [mkConv
    [("n1", mkNode (.pint 1700000000) (.plist [.pstr "aaa"])
        (.pstr "user") (.pstr "gpt-4o") (.plist [.pstr "n2"])),
     ("n2", mkNode (.pint 1700000000) (.plist [.pstr "bb"])
        (.pstr "assistant") (.pstr "gpt-4o") (.plist [.pstr "n3"]))]]

/-- A tokenizer that reports 40,000 tokens for any text. -/
def tokBig : Tok := fun _ => 40000

/-- A tokenizer table whose `gpt-4o` entry is `tokBig`. -/
def tksBig : Tokenizers := [("gpt-4o", tokBig)]

/-- Data for the C2 counterexample and the C10 witness: one assistant node
whose single part counts 40,000 tokens, with children. -/
def dataBig : List PyVal :=
  [mkConv [("n1", mkNode (.pint 1700000000) (.plist [.pstr "x"])
      (.pstr "assistant") (.pstr "gpt-4o") (.plist [.pstr "n2"]))]]

/-- Data for C3: a user node whose single part is the structured image
blob `width/height 1024`. -/
def dataC3 : List PyVal :=
  [mkConv [("n1", mkNode (.pint 1700000000)
      (.plist [.pdict [("width", .pint 1024), ("height", .pint 1024)]])
      (.pstr "user") (.pstr "gpt-4o") (.plist []))]]

/-- Data for C5: a node that is accountable in every respect except that
`metadata.model_slug` is absent. -/
def dataC5 : List PyVal :=
  [.pdict [("mapping", .pdict
    [("n1", .pdict [("message", .pdict
        [("content", .pdict [("parts", .plist [.pstr "hi"])]),
         ("author", .pdict [("role", .pstr "user")]),
         ("create_time", .pint 1700000000),
         ("metadata", .pdict [])]),
      ("children", .plist [])])])]]

/-- Data for C6: a node with `create_time` present but `parts` the empty
list, so `message_content[0]` raises `IndexError`. -/
def dataC6 : List PyVal :=
  [mkConv [("n1", mkNode (.pint 1700000000) (.plist [])
      (.pstr "user") (.pstr "gpt-4o") (.plist []))]]

/-- Data for C6, second case: a node whose `create_time` is absent. -/
def dataC6b : List PyVal :=
  [.pdict [("mapping", .pdict
    [("n1", .pdict [("message", .pdict
        [("content", .pdict [("parts", .plist [.pstr "hi"])]),
         ("author", .pdict [("role", .pstr "user")]),
         ("metadata", .pdict [("model_slug", .pstr "gpt-4o")])]),
      ("children", .plist [])])])]]

/-- Data for C7: a malformed node (`parts` is the number 7) followed by a
well-formed node in the same conversation. -/
def dataC7 : List PyVal :=
  [mkConv
    [("n1", mkNode (.pint 1700000000) (.pint 7)
        (.pstr "user") (.pstr "gpt-4o") (.plist [])),
     ("n2", mkNode (.pint 1700000000) (.plist [.pstr "aaa"])
        (.pstr "user") (.pstr "gpt-4o") (.plist []))]]

/-- Data for C7, tolerated case: a node whose `message` is `null` (the
root-node shape of an export) followed by a well-formed node. -/
def dataC7b : List PyVal :=
  [mkConv
    [("n0", .pdict [("message", .pnone), ("children", .plist [.pstr "n1"])]),
     ("n1", mkNode (.pint 1700000000) (.plist [.pstr "aaa"])
        (.pstr "user") (.pstr "gpt-4o") (.plist []))]]

/-- Tokenizer table for C9: the canonical `gpt-4-turbo` encoding would
report 100 tokens, the default `gpt-4o` encoding counts characters. -/
def tksC9 : Tokenizers := [("gpt-4-turbo", fun _ => 100), ("gpt-4o", tokLen)]

/-- Data for C9: a user node whose raw slug is `gpt-4` (recognized by
`MODEL_MAPPINGS`, absent from the keys of the tokenizer table). -/
def dataC9 : List PyVal :=
  [mkConv [("n1", mkNode (.pint 1700000000) (.plist [.pstr "abc"])
      (.pstr "user") (.pstr "gpt-4") (.plist []))]]

/-! ### Structural lemmas about the usage grids -/

theorem innerLook_innerAdd (inn : Inn) (mo : String) (t : Int) (mo' : String) :
    innerLook (innerAdd inn mo t) mo'
      = if mo' = mo then innerLook inn mo' + t else innerLook inn mo' := by
  induction inn with
  | nil =>
    by_cases h : mo' = mo <;> simp [innerAdd, innerLook, findD, h]
  | cons kv rest ih =>
    obtain ⟨k, v⟩ := kv
    by_cases h1 : k = mo
    · subst h1
      by_cases h2 : mo' = k <;> simp [innerAdd, innerLook, findD, h2]
    · by_cases h2 : mo' = k
      · subst h2
        simp [innerAdd, innerLook, findD, h1, Ne.symm h1]
      · simpa [innerAdd, innerLook, findD, h1, h2] using ih

theorem gridLook_gridAdd (g : Grid) (m mo : String) (t : Int) (m' mo' : String) :
    gridLook (gridAdd g m mo t) m' mo'
      = if m' = m ∧ mo' = mo then gridLook g m' mo' + t else gridLook g m' mo' := by
  induction g with
  | nil =>
    by_cases h1 : m' = m
    · subst h1
      simp [gridAdd, gridLook, findD, innerLook_innerAdd, innerLook]
    · simp [gridAdd, gridLook, findD, h1, innerLook]
  | cons kv rest ih =>
    obtain ⟨k, inn⟩ := kv
    by_cases h1 : k = m
    · subst h1
      by_cases h2 : m' = k
      · subst h2
        simp [gridAdd, gridLook, findD, innerLook_innerAdd]
      · simp [gridAdd, gridLook, findD, h2]
    · by_cases h2 : m' = k
      · subst h2
        simp [gridAdd, gridLook, findD, h1, Ne.symm h1]
      · simpa [gridAdd, gridLook, findD, h1, h2] using ih

theorem innerTotal_innerAdd (inn : Inn) (mo : String) (t : Int) :
    innerTotal (innerAdd inn mo t) = innerTotal inn + t := by
  induction inn with
  | nil => simp [innerAdd, innerTotal]
  | cons kv rest ih =>
    obtain ⟨k, v⟩ := kv
    by_cases h : k = mo
    · simp [innerAdd, innerTotal, h]
      ring
    · simp only [innerAdd, innerTotal, h, if_false, List.map_cons, List.sum_cons]
      simp only [innerTotal] at ih
      omega

theorem gridTotal_gridAdd (g : Grid) (m mo : String) (t : Int) :
    gridTotal (gridAdd g m mo t) = gridTotal g + t := by
  induction g with
  | nil => simp [gridAdd, gridTotal, innerTotal_innerAdd, innerTotal, innerAdd]
  | cons kv rest ih =>
    obtain ⟨k, inn⟩ := kv
    by_cases h : k = m
    · simp [gridAdd, gridTotal, h, innerTotal_innerAdd]
      ring
    · simp only [gridAdd, gridTotal, h, if_false, List.map_cons, List.sum_cons]
      simp only [gridTotal] at ih
      omega

/-! ### The cap invariant -/

/-- The loop invariant on `cumulative_input_tokens`. -/
abbrev StInv (st : St) : Prop := 0 ≤ st.cum ∧ st.cum ≤ 32000

theorem capStep_facts (cum t : Int) (h0 : 0 ≤ cum) (h1 : cum ≤ 32000)
    (ht : 0 ≤ t) :
    (capStep cum t).1 = cum + (capStep cum t).2 ∧ 0 ≤ (capStep cum t).2
      ∧ 0 ≤ (capStep cum t).1 ∧ (capStep cum t).1 ≤ 32000 := by
  unfold capStep
  split <;> refine ⟨by omega, by omega, by omega, by omega⟩

theorem processPart_bounds (tok : Tok) (month model : String) (role : PyVal)
    (hc : Bool) (st : St) (part : PyVal) (h : StInv st) :
    StInv (processPart tok month model role hc st part)
      ∧ st.cum ≤ (processPart tok month model role hc st part).cum
      ∧ gridTotal (processPart tok month model role hc st part).gin + st.cum
          ≤ gridTotal st.gin + (processPart tok month model role hc st part).cum
      ∧ gridTotal (processPart tok month model role hc st part).gout + st.cum
          ≤ gridTotal st.gout + (processPart tok month model role hc st part).cum := by
  have ht : (0 : Int) ≤ (partTokenCount tok part : Int) := Int.natCast_nonneg _
  obtain ⟨hA, hB, hC, hD⟩ := capStep_facts st.cum (partTokenCount tok part) h.1 h.2 ht
  unfold processPart StInv
  split_ifs with h1 h2 h3 <;>
    simp only [gridTotal_gridAdd] <;>
    exact ⟨⟨by omega, by omega⟩, by omega, by omega, by omega⟩

theorem processParts_bounds (tok : Tok) (month model : String) (role : PyVal)
    (hc : Bool) :
    ∀ (parts : List PyVal) (st : St), StInv st →
      StInv (processParts tok month model role hc st parts)
        ∧ st.cum ≤ (processParts tok month model role hc st parts).cum
        ∧ gridTotal (processParts tok month model role hc st parts).gin + st.cum
            ≤ gridTotal st.gin + (processParts tok month model role hc st parts).cum
        ∧ gridTotal (processParts tok month model role hc st parts).gout + st.cum
            ≤ gridTotal st.gout + (processParts tok month model role hc st parts).cum := by
  intro parts
  induction parts with
  | nil =>
    intro st h
    have hnil : processParts tok month model role hc st [] = st := rfl
    rw [hnil]
    exact ⟨h, by omega, by omega, by omega⟩
  | cons p rest ih =>
    intro st h
    have hstep : processParts tok month model role hc st (p :: rest)
        = processParts tok month model role hc (processPart tok month model role hc st p) rest := rfl
    obtain ⟨h1, h2, h3, h4⟩ := processPart_bounds tok month model role hc st p h
    obtain ⟨g1, g2, g3, g4⟩ := ih (processPart tok month model role hc st p) h1
    rw [hstep]
    exact ⟨g1, by omega, by omega, by omega⟩

theorem accountNode_bounds (tks : Tokenizers) (st : St)
    (mc role ct slug ch : PyVal) (st' : St)
    (hok : accountNode tks st mc role ct slug ch = .ok st') (h : StInv st) :
    StInv st' ∧ st.cum ≤ st'.cum
      ∧ gridTotal st'.gin + st.cum ≤ gridTotal st.gin + st'.cum
      ∧ gridTotal st'.gout + st.cum ≤ gridTotal st.gout + st'.cum := by
  unfold accountNode at hok
  split at hok
  · split at hok
    · exact absurd hok (by simp)
    · split at hok
      · split at hok
        · exact absurd hok (by simp)
        · split at hok
          · exact absurd hok (by simp)
          · split at hok
            · exact absurd hok (by simp)
            · injection hok with hok
              subst hok
              exact processParts_bounds _ _ _ _ _ _ st h
      · injection hok with hok
        subst hok
        exact ⟨h, by omega, by omega, by omega⟩
  · injection hok with hok
    subst hok
    exact ⟨h, by omega, by omega, by omega⟩

theorem processNode_bounds (tks : Tokenizers) (st : St) (md : PyVal) (st' : St)
    (hok : processNode tks st md = .ok st') (h : StInv st) :
    StInv st' ∧ st.cum ≤ st'.cum
      ∧ gridTotal st'.gin + st.cum ≤ gridTotal st.gin + st'.cum
      ∧ gridTotal st'.gout + st.cum ≤ gridTotal st.gout + st'.cum := by
  unfold processNode at hok
  rcases hb : processNodeBody tks st md with e | st1
  · rw [hb] at hok
    rcases e <;> simp at hok
    subst hok
    exact ⟨h, by omega, by omega, by omega⟩
  · rw [hb] at hok
    simp at hok
    subst hok
    unfold processNodeBody at hb
    rcases hf : nodeFields md with - | fields
    · rw [hf] at hb
      exact absurd hb (by simp)
    · rw [hf] at hb
      obtain ⟨mc, role, ct, slug, ch⟩ := fields
      exact accountNode_bounds tks st mc role ct slug ch _ hb h

theorem processItems_bounds (tks : Tokenizers) :
    ∀ (items : List (String × PyVal)) (st st' : St), StInv st →
      processItems tks st items = .ok st' →
      StInv st' ∧ st.cum ≤ st'.cum
        ∧ gridTotal st'.gin + st.cum ≤ gridTotal st.gin + st'.cum
        ∧ gridTotal st'.gout + st.cum ≤ gridTotal st.gout + st'.cum := by
  intro items
  induction items with
  | nil =>
    intro st st' h hok
    simp [processItems] at hok
    subst hok
    exact ⟨h, by omega, by omega, by omega⟩
  | cons kv rest ih =>
    intro st st' h hok
    unfold processItems at hok
    rcases hn : processNode tks st kv.2 with e | st1
    · rw [hn] at hok
      exact absurd hok (by simp)
    · rw [hn] at hok
      obtain ⟨h1, h2, h3, h4⟩ := processNode_bounds tks st kv.2 st1 hn h
      obtain ⟨g1, g2, g3, g4⟩ := ih st1 st' h1 hok
      exact ⟨g1, by omega, by omega, by omega⟩

theorem processConversation_bounds (tks : Tokenizers) (g : Grid × Grid)
    (conv : PyVal) (g' : Grid × Grid)
    (hok : processConversation tks g conv = .ok g') :
    gridTotal g'.1 ≤ gridTotal g.1 + 32000
      ∧ gridTotal g'.2 ≤ gridTotal g.2 + 32000 := by
  unfold processConversation at hok
  split at hok
  · exact absurd hok (by simp)
  · split at hok
    · exact absurd hok (by simp)
    · split at hok
      · exact absurd hok (by simp)
      · rename_i st hr
        simp only [Except.ok.injEq] at hok
        subst hok
        obtain ⟨h1, h2, h3, h4⟩ :=
          processItems_bounds tks _ _ st
            ⟨le_refl 0, show (0 : Int) ≤ 32000 by norm_num⟩ hr
        dsimp only at h2 h3 h4 ⊢
        exact ⟨by omega, by omega⟩

/-! ### Claim theorems -/

/-- C1 (counterexample): for one user node with two parts of 3 tokens each
(`tokLen` counts characters), the code puts 6 tokens into
`UsageGrid[2023-11][gpt-4o][input]` - the sum of the per-part own counts -
whereas the claim (input billed as the token count of the accumulated
context after each append) predicts 3 + 6 = 9. -/
theorem c1_counterexample :
    extract_token_usage tksLen dataC1 = .ok ([("2023-11", [("gpt-4o", 6)])], [])
      ∧ tokLen "aaa" = 3 ∧ tokLen ("aaa" ++ "aaa") = 6
      ∧ gridLook [("2023-11", [("gpt-4o", 6)])] "2023-11" "gpt-4o" = 6
      ∧ (6 : Int) ≠ 3 + 6 :=
  ⟨rfl, rfl, rfl, rfl, by decide⟩

/-- C1 (amended): for every message part accounted with role `user`, the
amount added to the input bucket of (month, model) is the token count of
the part alone, truncated by the 32,000-token cap
(`(capStep st.cum (partTokenCount tok part)).2`); the accumulated context
is never re-tokenized, and the output grid is untouched. -/
theorem c1_user_input_is_part_count (tok : Tok) (month model : String)
    (hc : Bool) (st : St) (part : PyVal) :
    gridLook (processPart tok month model (.pstr "user") hc st part).gin month model
        = gridLook st.gin month model + (capStep st.cum (partTokenCount tok part)).2
      ∧ (processPart tok month model (.pstr "user") hc st part).gout = st.gout := by
  unfold processPart
  simp [isRole, gridLook_gridAdd]

/-- C2 (counterexample): a single assistant part counting 40,000 tokens is
added to the output bucket as 32,000 (the cap truncates it), not as the
40,000 tokens of the part alone that the claim states. -/
theorem c2_counterexample :
    extract_token_usage tksBig dataBig
        = .ok ([("2023-11", [("gpt-4o", 32000)])], [("2023-11", [("gpt-4o", 32000)])])
      ∧ tokBig "x" = 40000
      ∧ gridLook [("2023-11", [("gpt-4o", 32000)])] "2023-11" "gpt-4o" = 32000
      ∧ (32000 : Int) ≠ 40000 :=
  ⟨rfl, rfl, rfl, by decide⟩

/-- C2 (amended): for every message part accounted with role `assistant`,
the cap-truncated token count of the part alone is added to the output
bucket, and the same amount is additionally added to the input bucket
exactly when the children list of the node are non-empty (`hc`); the scenario
"user 3 tokens, then assistant 2 tokens with children" yields input 5 and
output 2. -/
theorem c2_assistant_output_and_children (tok : Tok) (month model : String)
    (hc : Bool) (st : St) (part : PyVal) :
    gridLook (processPart tok month model (.pstr "assistant") hc st part).gout month model
        = gridLook st.gout month model + (capStep st.cum (partTokenCount tok part)).2
      ∧ gridLook (processPart tok month model (.pstr "assistant") hc st part).gin month model
        = gridLook st.gin month model
            + (if hc then (capStep st.cum (partTokenCount tok part)).2 else 0)
      ∧ extract_token_usage tksLen dataC2
        = .ok ([("2023-11", [("gpt-4o", 5)])], [("2023-11", [("gpt-4o", 2)])]) := by
  refine ⟨?_, ?_, rfl⟩ <;>
    · unfold processPart
      cases hc <;> simp [isRole, gridLook_gridAdd]

/-- C3 (counterexample): the structured part `{width: 1024, height: 1024}`
is serialized by `json.dumps` and tokenized as text (31 tokens under the
character-counting tokenizer), not valued by the tiling formula
`85 + 170 * floor(1024*1024 / (512*512)) = 765`; no tiling formula exists
in the code. -/
theorem c3_counterexample :
    extract_token_usage tksLen dataC3 = .ok ([("2023-11", [("gpt-4o", 31)])], [])
      ∧ gridLook [("2023-11", [("gpt-4o", 31)])] "2023-11" "gpt-4o" = 31
      ∧ (85 + 170 * ((1024 * 1024) / (512 * 512)) : Int) = 765
      ∧ (31 : Int) ≠ 765 :=
  ⟨rfl, rfl, by decide, by decide⟩

/-- C3 (amended): a structured (dict) content part - including one carrying
`width`/`height` fields - is serialized to its `json.dumps` text and
counted with the active text tokenizer; its contribution to the input
bucket is that count, cap-truncated.  The `width/height 1024` blob
serializes to the literal JSON object text. -/
theorem c3_dict_part_is_json_tokenized (tok : Tok) (month model : String)
    (hc : Bool) (st : St) (kvs : List (String × PyVal)) :
    partTokenCount tok (.pdict kvs) = tok (jsonDumps (.pdict kvs))
      ∧ gridLook (processPart tok month model (.pstr "user") hc st (.pdict kvs)).gin month model
        = gridLook st.gin month model
            + (capStep st.cum (tok (jsonDumps (.pdict kvs)))).2
      ∧ jsonDumps (.pdict [("width", .pint 1024), ("height", .pint 1024)])
        = "\x7b\"width\": 1024, \"height\": 1024\x7d" := by
  refine ⟨rfl, ?_, rfl⟩
  unfold processPart
  simp [isRole, gridLook_gridAdd, partTokenCount, count_tokens, serializePart]

/-- C5 (counterexample): a node that is accountable in every respect but
has no `model_slug` is not resolved to the default model - it is skipped
entirely: both returned grids are empty, so nothing is billed at the
price of the default model. -/
theorem c5_counterexample :
    extract_token_usage tksLen dataC5 = .ok ([], [])
      ∧ tokLen "hi" = 2
      ∧ gridLook [] (monthKey 1700000000) "gpt-4o" = 0 :=
  ⟨rfl, rfl, rfl⟩

/-- C6 (code bug): per the spec a node with empty `content_parts` must be
excluded with no tokens billed, but the code evaluates
`message_content[0]` whenever `create_time` is truthy, so an empty parts
list raises an uncaught `IndexError` and aborts the whole run.  A node
with `create_time` absent is, as claimed, excluded with no tokens added. -/
theorem c6_empty_parts_aborts :
    extract_token_usage tksLen dataC6 = .error .indexError
      ∧ extract_token_usage tksLen dataC6b = .ok ([], []) :=
  ⟨rfl, rfl⟩

/-- C7 (code bug): only `AttributeError` is caught, so a node whose
`parts` field has a non-subscriptable type (here the number 7) raises an
uncaught `TypeError` and aborts the run - the well-formed node after it is
never accounted.  A node whose `message` is `null` does raise
`AttributeError` and is skipped while accumulation continues. -/
theorem c7_malformed_node_aborts :
    extract_token_usage tksLen dataC7 = .error .typeError
      ∧ extract_token_usage tksLen dataC7b = .ok ([("2023-11", [("gpt-4o", 3)])], []) :=
  ⟨rfl, rfl⟩

/-! ### Further helper lemmas -/

theorem findD_eq_default {α : Type} (l : List (String × α)) (k : String) (d : α)
    (h : findOpt l k = none) : findD l k d = d := by
  induction l with
  | nil => rfl
  | cons kv rest ih =>
    obtain ⟨k1, v⟩ := kv
    by_cases hk : k = k1
    · simp [findOpt, hk] at h
    · simp only [findOpt, hk, if_false] at h
      simpa [findD, hk] using ih h

theorem costLoop_ok (out : Inn) :
    ∀ (inn : Inn) (acc : ℚ), (∀ p ∈ inn, (findOpt COSTS p.1).isSome = true) →
      costLoop out inn acc
        = .ok (acc + (inn.map (fun p => (p.2 : ℚ) / 1000000 * (findD COSTS p.1 (0, 0)).1
            + (innerLook out p.1 : ℚ) / 1000000 * (findD COSTS p.1 (0, 0)).2)).sum) := by
  intro inn
  induction inn with
  | nil =>
    intro acc _
    simp [costLoop]
  | cons p rest ih =>
    intro acc hall
    have hp : (findOpt COSTS p.1).isSome = true := hall p (by simp)
    rcases hfo : findOpt COSTS p.1 with - | price
    · rw [hfo] at hp
      simp at hp
    · have hfd : findD COSTS p.1 ((0 : ℚ), (0 : ℚ)) = price := by
        have : ∀ (l : List (String × (ℚ × ℚ))) (k : String) (d : ℚ × ℚ) (v : ℚ × ℚ),
            findOpt l k = some v → findD l k d = v := by
          intro l
          induction l with
          | nil => intro k d v h; exact absurd h (by simp [findOpt])
          | cons kv r ihr =>
            intro k d v h
            obtain ⟨k1, w⟩ := kv
            by_cases hk : k = k1
            · simp [findOpt, hk] at h
              simp [findD, hk, h]
            · simp only [findOpt, hk, if_false] at h
              simpa [findD, hk] using ihr k d v h
        exact this COSTS p.1 (0, 0) price hfo
      have hstep : costLoop out (p :: rest) acc
          = costLoop out rest (acc + ((p.2 : ℚ) / 1000000 * price.1
              + (innerLook out p.1 : ℚ) / 1000000 * price.2)) := by
        simp only [costLoop, hfo]
      rw [hstep, ih _ (fun q hq => hall q (by simp [hq]))]
      simp only [List.map_cons, List.sum_cons, hfd]
      congr 1
      ring

/-! ### Remaining claim theorems -/

/-- C4 (confirmed): with the hard-coded 32,000-token cap, starting from a
fresh per-conversation counter, after any prefix of the conversation node
items the counter stays within [0, 32000], the next per-part truncated
contribution is never negative, and the tokens a conversation adds to the
input grid (and hence to the input buckets) never exceed 32,000 - both at
the item-loop level and for a whole `processConversation` call. -/
theorem c4_cap_invariant (tks : Tokenizers) (items : List (String × PyVal))
    (g1 g2 : Grid) (st' : St)
    (hrun : processItems tks { cum := 0, gin := g1, gout := g2 } items = .ok st') :
    0 ≤ st'.cum ∧ st'.cum ≤ 32000
      ∧ (∀ (tok : Tok) (part : PyVal),
          0 ≤ (capStep st'.cum (partTokenCount tok part)).2)
      ∧ gridTotal st'.gin ≤ gridTotal g1 + 32000
      ∧ (∀ (conv : PyVal) (g g' : Grid × Grid),
          processConversation tks g conv = .ok g' →
            gridTotal g'.1 ≤ gridTotal g.1 + 32000) := by
  obtain ⟨⟨h1a, h1b⟩, h2, h3, h4⟩ :=
    processItems_bounds tks items _ st'
      ⟨le_refl 0, show (0 : Int) ≤ 32000 by norm_num⟩ hrun
  dsimp only at h2 h3 h4
  refine ⟨h1a, h1b, ?_, by omega, ?_⟩
  · intro tok part
    exact (capStep_facts st'.cum (partTokenCount tok part) h1a h1b
      (Int.natCast_nonneg _)).2.1
  · intro conv g g' hok
    exact (processConversation_bounds tks g conv g' hok).1

/-- The node items of the single conversation of `dataC1`. -/
def itemsC4 : List (String × PyVal) :=
  [("n1", mkNode (.pint 1700000000) (.plist [.pstr "aaa", .pstr "aaa"])
      (.pstr "user") (.pstr "gpt-4o") (.plist []))]

/-- The state reached by running `itemsC4` from a fresh counter. -/
def stC4 : St :=
  { cum := 6, gin := [("2023-11", [("gpt-4o", 6)])], gout := [] }

/-- Witness for C4: the cap facts hold on a concrete run of one user node
with two 3-token parts. -/
theorem c4_cap_invariant_witness :
    0 ≤ stC4.cum ∧ stC4.cum ≤ 32000
      ∧ 0 ≤ (capStep stC4.cum (partTokenCount tokLen (.pstr "zz"))).2
      ∧ gridTotal stC4.gin ≤ gridTotal ([] : Grid) + 32000
      ∧ gridTotal ([("2023-11", [("gpt-4o", 6)])] : Grid)
          ≤ gridTotal ([] : Grid) + 32000 := by
  have h := c4_cap_invariant tksLen itemsC4 [] [] stC4 rfl
  exact ⟨h.1, h.2.1, h.2.2.1 tokLen (.pstr "zz"), h.2.2.2.1,
    h.2.2.2.2 (mkConv itemsC4) ([], []) ([("2023-11", [("gpt-4o", 6)])], []) rfl⟩

/-- C10 (confirmed): assistant parts draw down the very same
per-conversation cap counter as user parts; the tokens a conversation adds
to the output grid never exceed 32,000; and once the counter has reached
32,000, any further part of the conversation leaves the counter at 32,000
and contributes 0 tokens to every input and output bucket. -/
theorem c10_output_cap (tks : Tokenizers) (items : List (String × PyVal))
    (g1 g2 : Grid) (st' : St)
    (hrun : processItems tks { cum := 0, gin := g1, gout := g2 } items = .ok st') :
    gridTotal st'.gout ≤ gridTotal g2 + 32000
      ∧ (∀ (tok : Tok) (month model : String) (hc : Bool) (st : St) (part : PyVal),
          (processPart tok month model (.pstr "assistant") hc st part).cum
            = (processPart tok month model (.pstr "user") hc st part).cum)
      ∧ (st'.cum = 32000 →
          ∀ (tok : Tok) (month model : String) (role : PyVal) (hc : Bool)
            (part : PyVal) (m mo : String),
          (processPart tok month model role hc st' part).cum = 32000
            ∧ gridLook (processPart tok month model role hc st' part).gin m mo
                = gridLook st'.gin m mo
            ∧ gridLook (processPart tok month model role hc st' part).gout m mo
                = gridLook st'.gout m mo) := by
  obtain ⟨⟨h1a, h1b⟩, h2, h3, h4⟩ :=
    processItems_bounds tks items _ st'
      ⟨le_refl 0, show (0 : Int) ≤ 32000 by norm_num⟩ hrun
  dsimp only at h2 h3 h4
  refine ⟨by omega, ?_, ?_⟩
  · intro tok month model hc st part
    unfold processPart
    simp [isRole]
  · intro h32 tok month model role hc part m mo
    have hcap : capStep 32000 ((partTokenCount tok part : Nat) : Int) = (32000, 0) := by
      unfold capStep
      split
      · simp
      · simp
        omega
    unfold processPart
    rw [h32]
    split_ifs with hu ha hcb <;>
      simp [hcap, gridLook_gridAdd]

/-- The node items of the single conversation of `dataBig`. -/
def itemsC10 : List (String × PyVal) :=
  [("n1", mkNode (.pint 1700000000) (.plist [.pstr "x"])
      (.pstr "assistant") (.pstr "gpt-4o") (.plist [.pstr "n2"]))]

/-- The state reached by running `itemsC10` from a fresh counter: the
40,000-token assistant part saturates the cap at 32,000. -/
def stC10 : St :=
  { cum := 32000,
    gin := [("2023-11", [("gpt-4o", 32000)])],
    gout := [("2023-11", [("gpt-4o", 32000)])] }

/-- Witness for C10: on a conversation that saturates the cap, the output
total is bounded, the assistant and user roles move the counter alike, and
one further part contributes nothing. -/
theorem c10_output_cap_witness :
    gridTotal stC10.gout ≤ gridTotal ([] : Grid) + 32000
      ∧ (processPart tokLen "2023-11" "gpt-4o" (.pstr "assistant") true stC10 (.pstr "zz")).cum
          = (processPart tokLen "2023-11" "gpt-4o" (.pstr "user") true stC10 (.pstr "zz")).cum
      ∧ (processPart tokLen "2023-11" "gpt-4o" (.pstr "user") true stC10 (.pstr "zz")).cum = 32000
      ∧ gridLook (processPart tokLen "2023-11" "gpt-4o" (.pstr "user") true stC10 (.pstr "zz")).gin
          "2023-11" "gpt-4o" = gridLook stC10.gin "2023-11" "gpt-4o"
      ∧ gridLook (processPart tokLen "2023-11" "gpt-4o" (.pstr "user") true stC10 (.pstr "zz")).gout
          "2023-11" "gpt-4o" = gridLook stC10.gout "2023-11" "gpt-4o" := by
  have h := c10_output_cap tksBig itemsC10 [] [] stC10 rfl
  have h3 := h.2.2 rfl tokLen "2023-11" "gpt-4o" (.pstr "user") true (.pstr "zz")
    "2023-11" "gpt-4o"
  exact ⟨h.1, h.2.1 tokLen "2023-11" "gpt-4o" true stC10 (.pstr "zz"),
    h3.1, h3.2.1, h3.2.2⟩

/-- C5 (amended): a missing (or otherwise non-truthy) `model_slug` causes
the node to be skipped entirely - no default resolution, no accounting -
while a present but unrecognized slug does resolve to the default
`gpt-4o`, and such a node is accounted at `gpt-4o` using the default
tokenizer. -/
theorem c5_unknown_slug (tks : Tokenizers) (tk : Tok) (st : St) (n : Int)
    (s p : String) (l : List PyVal) (role ch : PyVal)
    (hd : findOpt tks "gpt-4o" = some tk)
    (hts : findOpt tks s = none)
    (hm : findOpt MODEL_MAPPINGS s = none)
    (hn : pyTruthy (.pint n) = true)
    (hp : pyTruthy (.pstr p) = true)
    (hs : pyTruthy (.pstr s) = true) :
    modelFor (.pstr s) = "gpt-4o"
      ∧ processNode tks st (mkNode (.pint n) (.plist (.pstr p :: l)) role .pnone ch)
          = .ok st
      ∧ processNode tks st (mkNode (.pint n) (.plist [.pstr p]) (.pstr "user") (.pstr s) ch)
        = .ok { cum := (capStep st.cum (tk p)).1,
                gin := gridAdd st.gin (monthKey n) "gpt-4o" (capStep st.cum (tk p)).2,
                gout := st.gout } := by
  refine ⟨by simp [modelFor, findD_eq_default _ _ _ hm], ?_, ?_⟩
  · have hacc : accountNode tks st (.plist (.pstr p :: l)) role (.pint n) .pnone ch
        = .ok st := by
      unfold accountNode
      simp [pyTruthy, pyIndex0, hn]
    have hbody : processNodeBody tks st
        (mkNode (.pint n) (.plist (.pstr p :: l)) role .pnone ch) = .ok st := hacc
    unfold processNode
    rw [hbody]
  · have hacc : accountNode tks st (.plist [.pstr p]) (.pstr "user") (.pint n) (.pstr s) ch
        = .ok { cum := (capStep st.cum (tk p)).1,
                gin := gridAdd st.gin (monthKey n) "gpt-4o" (capStep st.cum (tk p)).2,
                gout := st.gout } := by
      unfold accountNode
      rw [hn]
      simp only [pyIndex0, hp, hs, Bool.and_self, if_true, pyTimestamp,
        selectTokenizer, hd, hts, Option.getD_none, pyIter]
      have hmf : modelFor (.pstr s) = "gpt-4o" := by
        simp [modelFor, findD_eq_default _ _ _ hm]
      rw [hmf]
      have hpp : processParts tk (monthKey n) "gpt-4o" (.pstr "user")
          (pyTruthy ch) st [.pstr p]
          = processPart tk (monthKey n) "gpt-4o" (.pstr "user") (pyTruthy ch) st (.pstr p) := rfl
      rw [hpp]
      unfold processPart
      simp [isRole, partTokenCount, count_tokens, serializePart]
    have hbody : processNodeBody tks st
        (mkNode (.pint n) (.plist [.pstr p]) (.pstr "user") (.pstr s) ch)
        = .ok { cum := (capStep st.cum (tk p)).1,
                gin := gridAdd st.gin (monthKey n) "gpt-4o" (capStep st.cum (tk p)).2,
                gout := st.gout } := hacc
    unfold processNode
    rw [hbody]

/-- Witness for C5 (amended): instantiated at the unrecognized slug
`mystery-model`, a node missing its slug is skipped and a node carrying
the unknown slug is billed at `gpt-4o` with the default tokenizer. -/
theorem c5_unknown_slug_witness :
    modelFor (.pstr "mystery-model") = "gpt-4o"
      ∧ processNode tksLen { cum := 0, gin := [], gout := [] }
          (mkNode (.pint 1700000000) (.plist [.pstr "hi"]) (.pstr "user") .pnone (.plist []))
          = .ok { cum := 0, gin := [], gout := [] }
      ∧ processNode tksLen { cum := 0, gin := [], gout := [] }
          (mkNode (.pint 1700000000) (.plist [.pstr "hi"]) (.pstr "user")
            (.pstr "mystery-model") (.plist []))
        = .ok { cum := (capStep 0 (tokLen "hi")).1,
                gin := gridAdd [] (monthKey 1700000000) "gpt-4o" (capStep 0 (tokLen "hi")).2,
                gout := [] } := by
  have h := c5_unknown_slug tksLen tokLen { cum := 0, gin := [], gout := [] }
    1700000000 "mystery-model" "hi" [] (.pstr "user") (.plist [])
    rfl rfl rfl rfl rfl rfl
  exact h

/-- C8 (counterexample): a month slice in which `gpt-4o` has one million
output tokens and no input entry is costed at 0 USD by the code, while the
claimed sum over models (0/1M * 5 + 1M/1M * 15) is 15 USD. -/
theorem c8_counterexample :
    calculate_cost [] [("gpt-4o", 1000000)] = .ok 0
      ∧ ((0 : ℚ) / 1000000 * 5 + (1000000 : ℚ) / 1000000 * 15 = 15)
      ∧ (0 : ℚ) ≠ 15 :=
  ⟨rfl, by norm_num, by norm_num⟩

/-- C8 (amended): when every model of the input slice is priced, the
computed month cost is exactly the sum over the models of the INPUT slice
of input/1M * input-price + output/1M * output-price (exact rational
arithmetic); models appearing only in the output slice contribute
nothing. -/
theorem c8_month_cost (inn out : Inn)
    (hc : ∀ p ∈ inn, (findOpt COSTS p.1).isSome = true) :
    calculate_cost inn out
      = .ok ((inn.map (fun p => (p.2 : ℚ) / 1000000 * (findD COSTS p.1 (0, 0)).1
          + (innerLook out p.1 : ℚ) / 1000000 * (findD COSTS p.1 (0, 0)).2)).sum) := by
  unfold calculate_cost
  rw [costLoop_ok out inn 0 hc]
  simp

/-- Witness for C8 (amended): two million input and one million output
`gpt-4o` tokens cost 2*5 + 1*15 = 25 USD. -/
theorem c8_month_cost_witness :
    calculate_cost [("gpt-4o", 2000000)] [("gpt-4o", 1000000)]
      = .ok ((([("gpt-4o", (2000000 : Int))]).map
          (fun p => (p.2 : ℚ) / 1000000 * (findD COSTS p.1 (0, 0)).1
            + (innerLook [("gpt-4o", 1000000)] p.1 : ℚ) / 1000000
                * (findD COSTS p.1 (0, 0)).2)).sum)
      ∧ calculate_cost [("gpt-4o", 2000000)] [("gpt-4o", 1000000)] = .ok 25 := by
  constructor
  · exact c8_month_cost [("gpt-4o", 2000000)] [("gpt-4o", 1000000)] (by decide)
  · rw [c8_month_cost [("gpt-4o", 2000000)] [("gpt-4o", 1000000)] (by decide)]
    norm_num [COSTS, findD, innerLook]
    simp
    norm_num

/-- C9 (confirmed): the tokenizer is selected by the RAW `model_slug`, not
by the resolved canonical model: whenever the raw slug is not a key of the
tokenizer table, the default `gpt-4o` tokenizer is returned - in
particular the recognized slug `gpt-4` (which resolves to `gpt-4-turbo`)
is counted with the `gpt-4o` encoding (3 characters of `abc`), yet billed
under the `gpt-4-turbo` bucket. -/
theorem c9_tokenizer_keyed_by_raw_slug (tks : Tokenizers) (d : Tok) (s : String)
    (hd : findOpt tks "gpt-4o" = some d) (hs : findOpt tks s = none) :
    selectTokenizer tks (.pstr s) = .ok d
      ∧ modelFor (.pstr "gpt-4") = "gpt-4-turbo"
      ∧ extract_token_usage tksC9 dataC9
        = .ok ([("2023-11", [("gpt-4-turbo", 3)])], []) := by
  refine ⟨?_, rfl, rfl⟩
  unfold selectTokenizer
  rw [hd]
  show Except.ok ((findOpt tks s).getD d) = Except.ok d
  rw [hs]
  simp

/-- Witness for C9: instantiated at the table `tksC9` and the recognized
raw slug `gpt-4`, which is not a tokenizer key. -/
theorem c9_tokenizer_keyed_by_raw_slug_witness :
    selectTokenizer tksC9 (.pstr "gpt-4") = .ok tokLen
      ∧ modelFor (.pstr "gpt-4") = "gpt-4-turbo"
      ∧ extract_token_usage tksC9 dataC9
        = .ok ([("2023-11", [("gpt-4-turbo", 3)])], []) :=
  c9_tokenizer_keyed_by_raw_slug tksC9 tokLen "gpt-4" rfl rfl

end CostCalc

